import Mathlib

/-!
Verification of the go-pomelo-client connection engine.

A shallow embedding of `connector.go` from revzim/go-pomelo-client, together
with theorems about the connection/protocol engine: handshake handling,
heartbeat gating, the inbound dispatch loop, request/response correlation and
the message-id counter.

Modelling conventions:
* Byte slices are `List Nat`.
* The external collaborators (the frame codec, the message codec and
  `json.Unmarshal`) live outside the embedded file; they are modelled as an
  environment `Env` of fallible functions (`Except String`), mirroring Go's
  `(value, error)` returns.
* Go callbacks (`type Callback func(data []byte)`) are modelled as opaque
  numeric identifiers; invoking one is an observable `Effect`.
* Side effects (channel sends, callback invocations, `log` calls, spawning the
  heartbeat ticker, `os.Exit` via `log.Fatal`) are recorded as an `Effect`
  list returned next to the new connector state.
* `mid` has Go type `uint`; it is modelled as a `Nat` reduced `% 2 ^ 64`
  (64-bit platform) at the single place the source increments it.
* Goroutine interleavings are not modelled: each operation is embedded as the
  sequential function the source writes, and system-level behaviour is a
  trace of such operations.
-/

namespace GoPomelo

/-- Byte slices, `[]byte` in Go. -/
def Bytes : Type := List Nat

instance : DecidableEq Bytes := by
  unfold Bytes
  infer_instance

/-- Packet kinds from the `packet` package: Handshake, HandshakeAck,
Heartbeat, Data, Kick. -/
inductive PacketType where
  | Handshake
  | HandshakeAck
  | Heartbeat
  | Data
  | Kick
  deriving DecidableEq

/-- A decoded wire frame: a kind tag plus opaque payload bytes. -/
structure Packet where
  type : PacketType
  data : Bytes
  deriving DecidableEq

/-- Message kinds from the `message` package: Request, Notify, Response,
Push. -/
inductive MessageType where
  | Request
  | Notify
  | Response
  | Push
  deriving DecidableEq

/-- A logical message carried inside a Data frame, with the fields
`connector.go` uses: Type, Route, ID, Data. -/
structure Message where
  type : MessageType
  route : String
  id : Nat
  data : Bytes
  deriving DecidableEq

/-- `HeartbeatSysOpts` of `connector.go`: the `sys` part of the handshake
response, carrying the heartbeat interval. -/
structure HeartbeatSysOpts where
  heartbeat : Int
  deriving DecidableEq

/-- `DefaultHandshakePacket` of `connector.go`: the JSON shape of the
handshake response, `code` plus `sys`. -/
structure DefaultHandshakePacket where
  code : Int
  sys : HeartbeatSysOpts
  deriving DecidableEq

/-- Which pre-encoded payload a `c.send` call site pushes onto `chSend`. -/
inductive SendTag where
  | handshake
  | handshakeAck
  | heartbeat
  | dataMsg
  deriving DecidableEq

/-- Observable side effects of the embedded operations. -/
inductive Effect where
  /-- `c.send data`: a buffer pushed onto the outbound queue `chSend`. -/
  | send (tag : SendTag) (data : Option Bytes)
  /-- A non-fatal `log.Println` call. -/
  | logged
  /-- `log.Fatal`: logs and then calls `os.Exit(1)`, terminating the host
  process; nothing after it executes. -/
  | fatalExit
  /-- `c.conn.Close()` on the transport. -/
  | connClose
  /-- `c.die <- 1`, the teardown signal to the writer goroutine. -/
  | dieSignal
  /-- The `go func` ticker goroutine spawned on handshake success, with the
  server-provided interval in seconds. -/
  | startHeartbeat (interval : Int)
  /-- Invocation of `c.connectedCallback`. -/
  | invokeConnectedCb (cb : Nat)
  /-- Invocation of an Event Registry callback with a push payload. -/
  | invokeEventCb (cb : Nat) (data : Bytes)
  /-- Invocation of a Pending-Response Registry callback with a response
  payload. -/
  | invokeResponseCb (cb : Nat) (data : Bytes)
  deriving DecidableEq

/-- Errors returned by the embedded operations, mirroring the Go `error`
values `connector.go` creates or passes through. -/
inductive GoError where
  /-- `errors.New "handshake not defined"` in `Run`. -/
  | handshakeNotDefined
  /-- A dial failure in `Run`. -/
  | dialErr
  /-- An error from `msg.Encode`, `codec.Encode` or `json.Marshal`, passed
  through with its message. -/
  | encodeErr (s : String)
  /-- `errors.New "read err: connector is closed"` in `read`. -/
  | connectorClosed
  /-- A transport-level `conn.Read` error, passed through with its message. -/
  | readErr (s : String)
  deriving DecidableEq

/-- The external collaborators of `connector.go`: the `codec` and `message`
packages and `encoding/json`, modelled as fallible functions. -/
structure Env where
  /-- `json.Unmarshal(p.Data, &handshakeResp)` for a Handshake frame body. -/
  unmarshalHandshake : Bytes → Except String DefaultHandshakePacket
  /-- `message.Decode` on a Data frame payload. -/
  messageDecode : Bytes → Except String Message
  /-- `msg.Encode()` on an outbound message. -/
  messageEncode : Message → Except String Bytes
  /-- `codec.Encode(kind, data)`; `none` data stands for a nil slice. -/
  codecEncode : PacketType → Option Bytes → Except String Bytes
  /-- `c.codec.Decode(buf)` on one chunk of read bytes. -/
  codecDecode : Bytes → Except String (List Packet)

/-- Association-list lookup, embedding a Go map read `m[k]`. -/
def lookupKey {α β : Type} [DecidableEq α] (k : α) : List (α × β) → Option β
  | [] => none
  | (k2, v) :: rest => if k2 = k then some v else lookupKey k rest

/-- Association-list delete, embedding `delete(m, k)`: drop every entry
whose key is `k`. -/
def eraseKey {α β : Type} [DecidableEq α] (k : α) :
    List (α × β) → List (α × β)
  | [] => []
  | p :: rest => if p.1 = k then eraseKey k rest else p :: eraseKey k rest

/-- Association-list insert, embedding a Go map write `m[k] = v`. -/
def insertKey {α β : Type} [DecidableEq α] (k : α) (v : β) (l : List (α × β)) :
    List (α × β) :=
  (k, v) :: eraseKey k l

/-- The modulus of Go's `uint` on a 64-bit platform. -/
def UWORD : Nat := 2 ^ 64

/-- The `Connector` struct: the fields of `connector.go` that carry protocol
state. The transport handle, decoder and channels are represented by effects
and the environment instead of fields. -/
structure Connector where
  /-- `mid uint`, the message-id counter. -/
  mid : Nat
  /-- `connecting bool`, the lifecycle flag. -/
  connecting : Bool
  /-- `connectedCallback func()`, optional. -/
  connectedCallback : Option Nat
  /-- `handshakeData []byte`, pre-encoded; `none` is a nil slice. -/
  handshakeData : Option Bytes
  /-- `handshakeAckData []byte`, pre-encoded; `none` is a nil slice. -/
  handshakeAckData : Option Bytes
  /-- `heartbeatData []byte`, pre-encoded; `none` is a nil slice. -/
  heartbeatData : Option Bytes
  /-- `events map[string]Callback`, the Event Registry. -/
  events : List (String × Nat)
  /-- `responses map[uint]Callback`, the Pending-Response Registry. -/
  responses : List (Nat × Nat)
  deriving DecidableEq

/-- Modelled from the spec: the constructor is not under `src/`; per §3 the
Connector is created empty — zero id counter, not connecting, no callbacks,
no pre-encoded payloads, empty registries. -/
def NewConnector : Connector :=
  { mid := 0, connecting := false, connectedCallback := none,
    handshakeData := none, handshakeAckData := none, heartbeatData := none,
    events := [], responses := [] }

/-- `IsClosed`: the connection is closed when `connecting` is false. -/
def IsClosed (c : Connector) : Bool :=
  !c.connecting

/-- `Close`: a no-op when not connecting; otherwise closes the transport,
signals the writer to die and clears the lifecycle flag. -/
def Close (c : Connector) : Connector × List Effect :=
  if !c.connecting then (c, [])
  else ({ c with connecting := false }, [.connClose, .dieSignal])

/-- `eventHandler`: Event Registry lookup. -/
def eventHandler (c : Connector) (event : String) : Option Nat :=
  lookupKey event c.events

/-- `responseHandler`: Pending-Response Registry lookup. -/
def responseHandler (c : Connector) (mid : Nat) : Option Nat :=
  lookupKey mid c.responses

/-- `setResponseHandler`: a nil callback deletes the registry entry, a
non-nil one inserts or replaces it. -/
def setResponseHandler (c : Connector) (mid : Nat) (cb : Option Nat) :
    Connector :=
  match cb with
  | none => { c with responses := eraseKey mid c.responses }
  | some cbId => { c with responses := insertKey mid cbId c.responses }

/-- `On`: insert or replace the Event Registry entry for a route. -/
def On (c : Connector) (event : String) (cb : Nat) : Connector :=
  { c with events := insertKey event cb c.events }

/-- `sendMessage`: encode the message, wrap it in a Data frame, and only on
success advance `mid` and push the payload onto the send queue. -/
def sendMessage (env : Env) (c : Connector) (msg : Message) :
    Connector × List Effect × Option GoError :=
  match env.messageEncode msg with
  | .error s => (c, [], some (.encodeErr s))
  | .ok data =>
    match env.codecEncode .Data (some data) with
    | .error s => (c, [], some (.encodeErr s))
    | .ok payload =>
      ({ c with mid := (c.mid + 1) % UWORD },
       [.send .dataMsg (some payload)], none)

/-- `Request`: build a Request message carrying the current `mid`, register
the callback under that id, send; on failure log, roll the registration back
and return the error. -/
def Request (env : Env) (c : Connector) (route : String) (data : Bytes)
    (callback : Nat) : Connector × List Effect × Option GoError :=
  let msg : Message :=
    { type := .Request, route := route, id := c.mid, data := data }
  let c1 := setResponseHandler c c.mid (some callback)
  match sendMessage env c1 msg with
  | (c2, effs, some e) =>
    (setResponseHandler c2 c2.mid none, effs ++ [.logged], some e)
  | (c2, effs, none) => (c2, effs, none)

/-- `Notify`: build a Notify message (the ID field keeps its Go zero value)
and send it; no registration is made. -/
def Notify (env : Env) (c : Connector) (route : String) (data : Bytes) :
    Connector × List Effect × Option GoError :=
  sendMessage env c { type := .Notify, route := route, id := 0, data := data }

/-- `processMessage`: route a Push to the Event Registry and a Response to
the Pending-Response Registry; a missing handler is logged and dropped; a
found response callback is invoked and then its entry removed. -/
def processMessage (c : Connector) (msg : Message) : Connector × List Effect :=
  match msg.type with
  | .Push =>
    match eventHandler c msg.route with
    | none => (c, [.logged])
    | some cb => (c, [.invokeEventCb cb msg.data])
  | .Response =>
    match responseHandler c msg.id with
    | none => (c, [.logged])
    | some cb =>
      (setResponseHandler c msg.id none, [.invokeResponseCb cb msg.data])
  | _ => (c, [])

/-- One tick of the heartbeat goroutine body spawned in `processPacket`:
return (send nothing) if the connector is closed, otherwise push the
pre-encoded heartbeat payload. -/
def heartbeatTick (c : Connector) : List Effect :=
  if IsClosed c then [] else [.send .heartbeat c.heartbeatData]

/-- `processPacket`: dispatch one decoded frame by kind. On a Handshake
frame, unmarshal the body (`Close` on failure), log the code; on code 200
spawn the heartbeat ticker, send the ack and invoke the connected callback;
on any other code `log.Fatal` — which exits the process, so the `Close` call
written after it is dead code. A Data frame is decoded and routed (decode
failure drops it). A Kick frame hits `log.Fatal` the same way. Other kinds
are ignored by the `switch`. -/
def processPacket (env : Env) (c : Connector) (p : Packet) :
    Connector × List Effect :=
  match p.type with
  | .Handshake =>
    match env.unmarshalHandshake p.data with
    | .error _ => Close c
    | .ok hs =>
      if hs.code = 200 then
        (c, [.logged, .startHeartbeat hs.sys.heartbeat,
             .send .handshakeAck c.handshakeAckData] ++
            (match c.connectedCallback with
             | some cb => [.invokeConnectedCb cb]
             | none => []))
      else
        (c, [.logged, .fatalExit])
  | .Data =>
    match env.messageDecode p.data with
    | .error _ => (c, [])
    | .ok msg => processMessage c msg
  | .Kick => (c, [.fatalExit])
  | _ => (c, [])

/-- Whether an effect list contains the process-terminating `log.Fatal`. -/
def hasFatal (effs : List Effect) : Bool :=
  effs.contains .fatalExit

/-- The `for i := range packets` loop of `read`: process decoded frames in
order; once `log.Fatal` fires the process is gone, so later frames of the
chunk are never reached. -/
def processPackets (env : Env) (c : Connector) :
    List Packet → Connector × List Effect
  | [] => (c, [])
  | p :: ps =>
    match processPacket env c p with
    | (c1, effs1) =>
      if hasFatal effs1 then (c1, effs1)
      else
        match processPackets env c1 ps with
        | (c2, effs2) => (c2, effs1 ++ effs2)

/-- How a run of the inbound dispatch loop ends. -/
inductive Outcome where
  /-- The modelled trace of reads is exhausted with the loop still running
  (blocked in the next `conn.Read`); the function has not returned. -/
  | running
  /-- The function returned this Go error value (`none` is a nil error). -/
  | returned (e : Option GoError)
  /-- `log.Fatal` terminated the host process; the function never returns. -/
  | exited
  deriving DecidableEq

/-- The result of one `conn.Read` in the loop: a chunk of bytes, or a
transport error with its message. -/
inductive NetRead where
  | chunk (bytes : Bytes)
  | fail (s : String)
  deriving DecidableEq

/-- `read`, the Inbound Dispatch Loop, driven by a finite trace of
`conn.Read` results. Each iteration: return a non-nil error if closed; on a
read error log, `Close` and return that error; on a chunk, a decode failure
is logged and the loop continues, otherwise every decoded frame is
dispatched in order. -/
def read (env : Env) (c : Connector) :
    List NetRead → Connector × List Effect × Outcome
  | [] => (c, [], .running)
  | r :: rest =>
    if IsClosed c then (c, [], .returned (some .connectorClosed))
    else
      match r with
      | .fail s =>
        match Close c with
        | (c1, effs) => (c1, .logged :: effs, .returned (some (.readErr s)))
      | .chunk bytes =>
        match env.codecDecode bytes with
        | .error _ =>
          match read env c rest with
          | (c2, effs, out) => (c2, .logged :: effs, out)
        | .ok packets =>
          match processPackets env c packets with
          | (c1, effs1) =>
            if hasFatal effs1 then (c1, effs1, .exited)
            else
              match read env c1 rest with
              | (c2, effs2, out) => (c2, effs1 ++ effs2, out)

/-- The nil-argument path of `SetHandshakeAck`, taken by `Run` when no ack
payload was configured: encode an empty HandshakeAck frame. -/
def SetHandshakeAckNil (env : Env) (c : Connector) : Except String Connector :=
  match c.handshakeAckData with
  | some _ => .ok c
  | none =>
    match env.codecEncode .HandshakeAck none with
    | .error s => .error s
    | .ok b => .ok { c with handshakeAckData := some b }

/-- The nil-argument path of `SetHeartBeat`, taken by `Run` when no
heartbeat payload was configured: encode an empty Heartbeat frame. -/
def SetHeartBeatNil (env : Env) (c : Connector) : Except String Connector :=
  match c.heartbeatData with
  | some _ => .ok c
  | none =>
    match env.codecEncode .Heartbeat none with
    | .error s => .error s
    | .ok b => .ok { c with heartbeatData := some b }

/-- `Run`: fail if no handshake payload is configured; fill in default ack
and heartbeat payloads; dial (modelled by its outcome `dialOk`); mark
connecting, start the writer, send the handshake frame and block in `read`,
returning whatever `read` produces. -/
def Run (env : Env) (c : Connector) (dialOk : Bool) (reads : List NetRead) :
    Connector × List Effect × Outcome :=
  if c.handshakeData = none then
    (c, [], .returned (some .handshakeNotDefined))
  else
    match SetHandshakeAckNil env c with
    | .error s => (c, [], .returned (some (.encodeErr s)))
    | .ok c1 =>
      match SetHeartBeatNil env c1 with
      | .error s => (c1, [], .returned (some (.encodeErr s)))
      | .ok c2 =>
        if !dialOk then (c2, [], .returned (some .dialErr))
        else
          match read env { c2 with connecting := true } reads with
          | (c4, effs, out) =>
            (c4, .send .handshake c2.handshakeData :: effs, out)

/-- Whether an effect is the spawning of the heartbeat ticker goroutine. -/
def isStartHB : Effect → Bool
  | .startHeartbeat _ => true
  | _ => false

/-- Whether an effect is a heartbeat payload pushed onto the send queue (the
only call site sending with the heartbeat tag is the ticker body). -/
def isHBSend : Effect → Bool
  | .send .heartbeat _ => true
  | _ => false

/-- The number of heartbeat sends in an effect list. -/
def hbSends (effs : List Effect) : Nat :=
  effs.countP isHBSend

/-- System state for traces: the connector, whether the heartbeat ticker
goroutine has been spawned, and whether `log.Fatal` has terminated the
process. -/
structure Sys where
  conn : Connector
  hbStarted : Bool
  exited : Bool
  deriving DecidableEq

/-- One event the engine can experience: an inbound decoded frame, a caller
operation, or a tick of the heartbeat ticker. -/
inductive Input where
  | pkt (p : Packet)
  | req (route : String) (data : Bytes) (cb : Nat)
  | ntf (route : String) (data : Bytes)
  | close
  | hbTick
  deriving DecidableEq

/-- One step of the engine on one input. A dead process does nothing. A
frame is dispatched through `processPacket`; spawning the ticker sets
`hbStarted` and `log.Fatal` sets `exited`. A tick runs the ticker body only
if the ticker was ever spawned. -/
def step (env : Env) (s : Sys) (i : Input) : Sys × List Effect :=
  if s.exited then (s, [])
  else
    match i with
    | .pkt p =>
      match processPacket env s.conn p with
      | (c1, effs) =>
        ({ conn := c1, hbStarted := s.hbStarted || effs.any isStartHB,
           exited := hasFatal effs }, effs)
    | .req route data cb =>
      match Request env s.conn route data cb with
      | (c1, effs, _) => ({ s with conn := c1 }, effs)
    | .ntf route data =>
      match Notify env s.conn route data with
      | (c1, effs, _) => ({ s with conn := c1 }, effs)
    | .close =>
      match Close s.conn with
      | (c1, effs) => ({ s with conn := c1 }, effs)
    | .hbTick =>
      if s.hbStarted then (s, heartbeatTick s.conn) else (s, [])

/-- Run a trace of inputs, threading the state and concatenating effects. -/
def runTrace (env : Env) (s : Sys) : List Input → Sys × List Effect
  | [] => (s, [])
  | i :: rest =>
    match step env s i with
    | (s1, effs1) =>
      match runTrace env s1 rest with
      | (s2, effs2) => (s2, effs1 ++ effs2)

/-- Whether a frame is a Handshake whose body unmarshals with status code
200 — the only event that starts the heartbeat scheduler. -/
def isHs200Pkt (env : Env) (p : Packet) : Bool :=
  match p.type with
  | .Handshake =>
    match env.unmarshalHandshake p.data with
    | .ok hs => hs.code = 200
    | .error _ => false
  | _ => false

/-- Whether an input is an inbound code-200 Handshake frame. -/
def isHs200 (env : Env) : Input → Bool
  | .pkt p => isHs200Pkt env p
  | _ => false

/-! ## Registry lemmas -/

theorem lookupKey_eraseKey_self {α β : Type} [DecidableEq α] (k : α)
    (l : List (α × β)) : lookupKey k (eraseKey k l) = none := by
  induction l with
  | nil => rfl
  | cons p rest ih =>
    by_cases h : p.1 = k
    · simpa [eraseKey, h] using ih
    · simpa [eraseKey, h, lookupKey] using ih

theorem lookupKey_eraseKey_ne {α β : Type} [DecidableEq α] {k k2 : α}
    (l : List (α × β)) (h : k2 ≠ k) :
    lookupKey k2 (eraseKey k l) = lookupKey k2 l := by
  induction l with
  | nil => rfl
  | cons p rest ih =>
    have hkk : k ≠ k2 := fun hc => h hc.symm
    by_cases hp : p.1 = k
    · simp [eraseKey, hp, lookupKey, hkk, ih]
    · by_cases hq : p.1 = k2 <;> simp [eraseKey, hp, lookupKey, hq, h, ih]

theorem lookupKey_insertKey_self {α β : Type} [DecidableEq α] (k : α) (v : β)
    (l : List (α × β)) : lookupKey k (insertKey k v l) = some v := by
  simp [insertKey, lookupKey]

theorem lookupKey_insertKey_ne {α β : Type} [DecidableEq α] {k k2 : α} (v : β)
    (l : List (α × β)) (h : k2 ≠ k) :
    lookupKey k2 (insertKey k v l) = lookupKey k2 l := by
  have hne : k ≠ k2 := fun hc => h hc.symm
  simp [insertKey, lookupKey, hne, lookupKey_eraseKey_ne l h]

/-! ## Concrete test fixtures

A small concrete environment used to instantiate the theorems: byte strings
with fixed decodings, standing for a server that speaks the protocol. -/

/-- Body of a handshake response that unmarshals to code 200. -/
def hsOkBody : Bytes := [0]

/-- Body of a handshake response that unmarshals to code 500. -/
def hsBadBody : Bytes := [1]

/-- A Data payload decoding to a Response message with id 0. -/
def respBody : Bytes := [2]

/-- A chunk decoding to one code-200 Handshake frame. -/
def chunkHsOk : Bytes := [10]

/-- A chunk decoding to one code-500 Handshake frame. -/
def chunkHsBad : Bytes := [11]

/-- A chunk decoding to one Kick frame. -/
def chunkKick : Bytes := [12]

/-- A chunk that fails frame decoding. -/
def chunkGarbage : Bytes := [99]

/-- A concrete environment: total encoders, decoders defined on the fixture
bytes above. -/
def envT : Env where
  unmarshalHandshake b :=
    if b = hsOkBody then .ok { code := 200, sys := { heartbeat := 3 } }
    else if b = hsBadBody then .ok { code := 500, sys := { heartbeat := 3 } }
    else .error "bad handshake json"
  messageDecode b :=
    if b = respBody then
      .ok { type := .Response, route := "", id := 0, data := [9, 9] }
    else .error "bad message"
  messageEncode m := .ok m.data
  codecEncode _ b := .ok (b.getD [])
  codecDecode b :=
    if b = chunkHsOk then .ok [{ type := .Handshake, data := hsOkBody }]
    else if b = chunkHsBad then .ok [{ type := .Handshake, data := hsBadBody }]
    else if b = chunkKick then .ok [{ type := .Kick, data := [] }]
    else .error "bad frame bytes"

/-- A concrete environment whose message encoder always fails, standing for
a serialization failure on an outbound message. -/
def envBadEncode : Env :=
  { envT with messageEncode := fun _ => .error "encode failed" }

/-- A configured, established connector used as a concrete instance. -/
def cEst : Connector :=
  { mid := 0, connecting := true, connectedCallback := some 7,
    handshakeData := some [5], handshakeAckData := some [6],
    heartbeatData := some [8], events := [], responses := [] }

/-! ## Small structural lemmas -/

@[simp]
theorem setResponseHandler_mid (c : Connector) (mid : Nat) (cb : Option Nat) :
    (setResponseHandler c mid cb).mid = c.mid := by
  cases cb <;> rfl

@[simp]
theorem setResponseHandler_connecting (c : Connector) (mid : Nat)
    (cb : Option Nat) : (setResponseHandler c mid cb).connecting =
      c.connecting := by
  cases cb <;> rfl

@[simp]
theorem setResponseHandler_responses_none (c : Connector) (mid : Nat) :
    (setResponseHandler c mid none).responses = eraseKey mid c.responses :=
  rfl

@[simp]
theorem setResponseHandler_responses_some (c : Connector) (mid cb : Nat) :
    (setResponseHandler c mid (some cb)).responses =
      insertKey mid cb c.responses :=
  rfl

theorem eraseKey_insertKey_self {α β : Type} [DecidableEq α] (k : α) (v : β)
    (l : List (α × β)) : eraseKey k (insertKey k v l) = eraseKey k l := by
  induction l with
  | nil => simp [insertKey, eraseKey]
  | cons p rest ih =>
    by_cases h : p.1 = k <;> simp_all [insertKey, eraseKey]

/-! ## Claim theorems -/

/-- C1 (code bug): on a handshake response with code 500 the source runs
`log.Fatal`, so the embedded `Run` ends in `Outcome.exited` — the host
process is terminated, the connection is never closed (`IsClosed` stays
false, the `c.Close()` after `log.Fatal` being unreachable), no heartbeat
ticker is spawned and no error is ever returned from `Run`. -/
theorem handshake_bad_code_kills_process :
    (Run envT cEst true [.chunk chunkHsBad]).2.2 = Outcome.exited ∧
    processPacket envT cEst { type := .Handshake, data := hsBadBody } =
      (cEst, [.logged, .fatalExit]) ∧
    IsClosed (Run envT cEst true [.chunk chunkHsBad]).1 = false ∧
    hbSends (Run envT cEst true [.chunk chunkHsBad]).2.1 = 0 ∧
    ((Run envT cEst true [.chunk chunkHsBad]).2.1.any isStartHB) = false := by
  decide

/-- C2 (code bug): on an inbound Kick frame the source runs `log.Fatal`, so
the embedded `Run` ends in `Outcome.exited` — the host process is
terminated, `IsClosed` stays false (the `c.Close()` after `log.Fatal` is
unreachable) and `Run` never returns any peer-initiated-close error. -/
theorem kick_kills_process :
    (Run envT cEst true [.chunk chunkKick]).2.2 = Outcome.exited ∧
    processPacket envT cEst { type := .Kick, data := [] } =
      (cEst, [.fatalExit]) ∧
    IsClosed (Run envT cEst true [.chunk chunkKick]).1 = false := by
  decide

/-- C4 (counterexample): a `Request` whose message encoding fails returns an
error but leaves `mid` unchanged — the counter did not advance, refuting
that it advances exactly once regardless of success. -/
theorem request_mid_not_advanced_on_failure :
    (Request envBadEncode cEst "room.join" [4] 9).2.2 =
      some (.encodeErr "encode failed") ∧
    (Request envBadEncode cEst "room.join" [4] 9).1.mid = cEst.mid ∧
    cEst.mid ≠ (cEst.mid + 1) % UWORD := by
  decide

/-- C4 (amended): the message-id counter advances exactly once (modulo
Go's 64-bit `uint`) on a `Request` whose send succeeds, and does not advance
at all on a `Request` whose encoding or framing fails. -/
theorem request_mid_advances_iff_success (env : Env) (c : Connector)
    (route : String) (data : Bytes) (cb : Nat) :
    ((Request env c route data cb).2.2 = none →
      (Request env c route data cb).1.mid = (c.mid + 1) % UWORD) ∧
    ((Request env c route data cb).2.2 ≠ none →
      (Request env c route data cb).1.mid = c.mid) := by
  unfold Request sendMessage
  cases h1 : env.messageEncode
      { type := .Request, route := route, id := c.mid, data := data } with
  | error s => simp [h1]
  | ok d =>
    cases h2 : env.codecEncode .Data (some d) with
    | error s => simp [h1, h2]
    | ok payload => simp [h1, h2]

/-- C4 witness: a successful concrete `Request` advances `mid` from 0 to 1,
a failing one leaves it at 0. -/
theorem request_mid_advances_iff_success_witness :
    (Request envT cEst "room.join" [4] 9).1.mid = (cEst.mid + 1) % UWORD ∧
    (Request envBadEncode cEst "room.join" [4] 9).1.mid = cEst.mid :=
  ⟨(request_mid_advances_iff_success envT cEst "room.join" [4] 9).1
      (by decide),
   (request_mid_advances_iff_success envBadEncode cEst "room.join" [4] 9).2
      (by decide)⟩

/-- C6: when `Request` fails, the error is returned, the registration made
for the current id is rolled back (the id is absent from the registry, all
other entries untouched), and a later Response carrying that id finds no
handler — it is logged and dropped, so no callback ever fires for the
failed send. -/
theorem request_failure_rolls_back (env : Env) (c : Connector)
    (route : String) (data : Bytes) (cb : Nat) (e : GoError)
    (h : (Request env c route data cb).2.2 = some e) :
    lookupKey c.mid (Request env c route data cb).1.responses = none ∧
    (∀ k, k ≠ c.mid →
      lookupKey k (Request env c route data cb).1.responses =
        lookupKey k c.responses) ∧
    (∀ r2 d2, processMessage (Request env c route data cb).1
        { type := .Response, route := r2, id := c.mid, data := d2 } =
      ((Request env c route data cb).1, [.logged])) := by
  unfold Request sendMessage at *
  cases h1 : env.messageEncode
      { type := .Request, route := route, id := c.mid, data := data } with
  | error s =>
    simp only [h1] at *
    refine ⟨?_, ?_, ?_⟩
    · simp [eraseKey_insertKey_self, lookupKey_eraseKey_self]
    · intro k hk
      simp [lookupKey_eraseKey_ne _ hk, lookupKey_insertKey_ne _ _ hk]
    · intro r2 d2
      simp [processMessage, responseHandler, eraseKey_insertKey_self,
        lookupKey_eraseKey_self]
  | ok d =>
    cases h2 : env.codecEncode .Data (some d) with
    | error s =>
      simp only [h1, h2] at *
      refine ⟨?_, ?_, ?_⟩
      · simp [eraseKey_insertKey_self, lookupKey_eraseKey_self]
      · intro k hk
        simp [lookupKey_eraseKey_ne _ hk, lookupKey_insertKey_ne _ _ hk]
      · intro r2 d2
        simp [processMessage, responseHandler, eraseKey_insertKey_self,
          lookupKey_eraseKey_self]
    | ok payload => simp [h1, h2] at h

/-- C6 witness: a concrete failing `Request` from an established connector
leaves id 0 unregistered and a Response with id 0 is dropped with a log. -/
theorem request_failure_rolls_back_witness :
    lookupKey cEst.mid
      (Request envBadEncode cEst "room.join" [4] 9).1.responses = none ∧
    lookupKey 3
      (Request envBadEncode cEst "room.join" [4] 9).1.responses =
        lookupKey 3 cEst.responses ∧
    processMessage (Request envBadEncode cEst "room.join" [4] 9).1
        { type := .Response, route := "", id := cEst.mid, data := [1] } =
      ((Request envBadEncode cEst "room.join" [4] 9).1, [.logged]) := by
  have h := request_failure_rolls_back envBadEncode cEst "room.join" [4] 9
    (.encodeErr "encode failed") (by decide)
  exact ⟨h.1, h.2.1 3 (by decide), h.2.2 "" [1]⟩

/-- C5: a successful `Request` registers its callback under the issued id;
an inbound Response whose id has a registry entry invokes exactly that
callback, exactly once, with the Response's payload, and the entry is
removed (other entries untouched); an inbound Response whose id has no
entry — never issued, late or duplicate — is logged and dropped with the
connector unchanged. -/
theorem response_delivered_exactly_once (env : Env) (c0 : Connector)
    (route : String) (data : Bytes) (cb : Nat) :
    ((Request env c0 route data cb).2.2 = none →
      (Request env c0 route data cb).1.responses =
        insertKey c0.mid cb c0.responses) ∧
    (∀ (c : Connector) (m : Message) (cb2 : Nat), m.type = .Response →
      responseHandler c m.id = some cb2 →
      processMessage c m =
        (setResponseHandler c m.id none, [.invokeResponseCb cb2 m.data])) ∧
    (∀ (c : Connector) (mid : Nat),
      responseHandler (setResponseHandler c mid none) mid = none ∧
      ∀ k, k ≠ mid →
        lookupKey k (setResponseHandler c mid none).responses =
          lookupKey k c.responses) ∧
    (∀ (c : Connector) (m : Message), m.type = .Response →
      responseHandler c m.id = none → processMessage c m = (c, [.logged])) := by
  refine ⟨?_, ?_, ?_, ?_⟩
  · intro hok
    unfold Request sendMessage at *
    cases h1 : env.messageEncode
        { type := .Request, route := route, id := c0.mid, data := data } with
    | error s => simp [h1] at hok
    | ok d =>
      cases h2 : env.codecEncode .Data (some d) with
      | error s => simp [h1, h2] at hok
      | ok payload => simp [h1, h2]
  · intro c m cb2 htype hfound
    obtain ⟨mt, mr, mi, md⟩ := m
    simp only at htype
    subst htype
    simp [processMessage, hfound]
  · intro c mid
    exact ⟨by simp [responseHandler, lookupKey_eraseKey_self],
      fun k hk => by simp [lookupKey_eraseKey_ne _ hk]⟩
  · intro c m htype hnone
    obtain ⟨mt, mr, mi, md⟩ := m
    simp only at htype
    subst htype
    simp [processMessage, hnone]

/-- C5 witness: concretely, `Request` with callback 9 succeeds and issues
id 0; the Response with id 0 and payload 3,3 invokes callback 9 exactly
once with that payload; afterwards id 0 is gone and the same Response is
dropped with a log; a Response with the never-issued id 42 is dropped. -/
theorem response_delivered_exactly_once_witness :
    (Request envT cEst "room.join" [4] 9).1.responses =
      insertKey cEst.mid 9 cEst.responses ∧
    processMessage (Request envT cEst "room.join" [4] 9).1
        { type := .Response, route := "", id := 0, data := [3, 3] } =
      (setResponseHandler (Request envT cEst "room.join" [4] 9).1 0 none,
       [.invokeResponseCb 9 [3, 3]]) ∧
    responseHandler
      (setResponseHandler (Request envT cEst "room.join" [4] 9).1 0 none)
      0 = none ∧
    processMessage cEst
        { type := .Response, route := "", id := 42, data := [3] } =
      (cEst, [.logged]) := by
  have h := response_delivered_exactly_once envT cEst "room.join" [4] 9
  exact ⟨h.1 (by decide),
    h.2.1 (Request envT cEst "room.join" [4] 9).1
      { type := .Response, route := "", id := 0, data := [3, 3] } 9 rfl
      (by decide),
    (h.2.2.1 (Request envT cEst "room.join" [4] 9).1 0).1,
    h.2.2.2 cEst { type := .Response, route := "", id := 42, data := [3] }
      rfl (by decide)⟩

/-- C10: a successful `Notify` advances `mid` — the same counter `Request`
draws ids from — without touching the Pending-Response Registry, and a
successful `Request` registers its callback under the current value of that
shared counter before advancing it. -/
theorem notify_advances_shared_counter (env : Env) (c : Connector)
    (route r2 : String) (data d2 : Bytes) (cb : Nat) :
    ((Notify env c route data).2.2 = none →
      (Notify env c route data).1.mid = (c.mid + 1) % UWORD ∧
      (Notify env c route data).1.responses = c.responses) ∧
    ((Request env c r2 d2 cb).2.2 = none →
      responseHandler (Request env c r2 d2 cb).1 c.mid = some cb ∧
      (Request env c r2 d2 cb).1.mid = (c.mid + 1) % UWORD) := by
  constructor
  · intro hok
    unfold Notify sendMessage at *
    cases h1 : env.messageEncode
        { type := .Notify, route := route, id := 0, data := data } with
    | error s => simp [h1] at hok
    | ok d =>
      cases h2 : env.codecEncode .Data (some d) with
      | error s => simp [h1, h2] at hok
      | ok payload => simp [h1, h2]
  · intro hok
    unfold Request sendMessage at *
    cases h1 : env.messageEncode
        { type := .Request, route := r2, id := c.mid, data := d2 } with
    | error s => simp [h1] at hok
    | ok d =>
      cases h2 : env.codecEncode .Data (some d) with
      | error s => simp [h1, h2] at hok
      | ok payload =>
        simp [h1, h2, responseHandler, lookupKey_insertKey_self]

/-- C10 witness: from an established connector with `mid = 0`, a successful
`Notify` moves `mid` to 1, and the first `Request` issued afterwards is
registered under id 1 even though no Request was ever issued before. -/
theorem notify_advances_shared_counter_witness :
    (Notify envT cEst "chat.msg" [1]).1.mid = (cEst.mid + 1) % UWORD ∧
    responseHandler
      (Request envT (Notify envT cEst "chat.msg" [1]).1 "room.join" [2] 9).1
      (Notify envT cEst "chat.msg" [1]).1.mid = some 9 := by
  have h1 := (notify_advances_shared_counter envT cEst "chat.msg" "x" [1]
    [0] 0).1 (by decide)
  have h2 := (notify_advances_shared_counter envT
    (Notify envT cEst "chat.msg" [1]).1 "x" "room.join" [9] [2] 9).2
    (by decide)
  exact ⟨h1.1, h2.1⟩

/-- C3 (counterexample): on a connector closed by an explicit `Close`, the
dispatch loop returns the non-nil error `connectorClosed` (Go:
`errors.New "read err: connector is closed"`), not a nil error as the claim
states. -/
theorem run_not_nil_after_clean_close :
    (read envT (Close cEst).1 [.chunk chunkHsOk]).2.2 =
      .returned (some .connectorClosed) ∧
    Outcome.returned (some GoError.connectorClosed) ≠
      Outcome.returned none := by
  decide

/-- C3 (amended): with configuration complete and the dial successful, `Run`
returns exactly the dispatch loop's result (the handshake send prepended to
its effects); and when the connection has been closed by an explicit
`Close()`, the loop's terminal error is the non-nil `connectorClosed`
error, not nil. -/
theorem run_surfaces_loop_outcome (env : Env) (c : Connector)
    (reads : List NetRead) (hd ad hb : Bytes)
    (h1 : c.handshakeData = some hd)
    (h2 : c.handshakeAckData = some ad)
    (h3 : c.heartbeatData = some hb) :
    Run env c true reads =
      ((read env { c with connecting := true } reads).1,
       .send .handshake (some hd) ::
         (read env { c with connecting := true } reads).2.1,
       (read env { c with connecting := true } reads).2.2) ∧
    (∀ (c2 : Connector) (r : NetRead) (rest : List NetRead),
      IsClosed c2 = true →
      read env c2 (r :: rest) = (c2, [], .returned (some .connectorClosed))) := by
  constructor
  · rcases h : read env { c with connecting := true } reads with ⟨c4, effs, out⟩
    simp only [h1, h2, h3] at h
    simp [Run, h1, SetHandshakeAckNil, h2, SetHeartBeatNil, h3, h]
  · intro c2 r rest hclosed
    simp [read, hclosed]

/-- C3 witness: with the concrete established connector, `Run` over a
garbage chunk surfaces the loop's outcome, and a closed connector makes the
loop return the non-nil `connectorClosed` error. -/
theorem run_surfaces_loop_outcome_witness :
    Run envT cEst true [.chunk chunkGarbage] =
      ((read envT { cEst with connecting := true } [.chunk chunkGarbage]).1,
       .send .handshake (some [5]) ::
         (read envT { cEst with connecting := true }
           [.chunk chunkGarbage]).2.1,
       (read envT { cEst with connecting := true }
         [.chunk chunkGarbage]).2.2) ∧
    read envT (Close cEst).1 [.chunk chunkHsOk] =
      ((Close cEst).1, [], .returned (some .connectorClosed)) := by
  have h := run_surfaces_loop_outcome envT cEst [.chunk chunkGarbage]
    [5] [6] [8] rfl rfl rfl
  exact ⟨h.1, h.2 (Close cEst).1 (.chunk chunkHsOk) [] (by decide)⟩

/-- C9: in the dispatch loop a frame-decode failure is non-fatal — it is
logged and the loop goes on with the connector unchanged — while a
transport-level read failure is fatal: the connector is closed (`IsClosed`
becomes true), the loop returns that read error, and `Run` surfaces it as
its own result. -/
theorem decode_nonfatal_read_error_fatal (env : Env) (c : Connector)
    (b : Bytes) (es s : String) (rest : List NetRead)
    (hopen : IsClosed c = false) :
    (env.codecDecode b = .error es →
      read env c (.chunk b :: rest) =
        ((read env c rest).1, .logged :: (read env c rest).2.1,
         (read env c rest).2.2)) ∧
    (read env c (.fail s :: rest) =
      ((Close c).1, .logged :: (Close c).2,
       .returned (some (.readErr s))) ∧
     IsClosed (Close c).1 = true) ∧
    (∀ hd ad hb, c.handshakeData = some hd → c.handshakeAckData = some ad →
      c.heartbeatData = some hb →
      (Run env c true (.fail s :: rest)).2.2 =
        .returned (some (.readErr s))) := by
  have hconn : c.connecting = true := by
    simpa [IsClosed] using hopen
  refine ⟨?_, ⟨?_, ?_⟩, ?_⟩
  · intro hdec
    rcases h : read env c rest with ⟨c2, effs, out⟩
    simp [read, hopen, hdec, h]
  · simp [read, hopen, Close, hconn]
  · simp [IsClosed, Close, hconn]
  · intro hd ad hb h1 h2 h3
    simp [Run, h1, SetHandshakeAckNil, h2, SetHeartBeatNil, h3, read,
      IsClosed, Close]

/-- C9 witness: concretely, a garbage chunk is logged and skipped with the
loop still running, while a transport error closes the connector and is
returned; `Run` returns that same error. -/
theorem decode_nonfatal_read_error_fatal_witness :
    read envT cEst [.chunk chunkGarbage] =
      ((read envT cEst []).1, .logged :: (read envT cEst []).2.1,
       (read envT cEst []).2.2) ∧
    read envT cEst [.fail "connection reset"] =
      ((Close cEst).1, .logged :: (Close cEst).2,
       .returned (some (.readErr "connection reset"))) ∧
    IsClosed (Close cEst).1 = true ∧
    (Run envT cEst true [.fail "connection reset"]).2.2 =
      .returned (some (.readErr "connection reset")) := by
  have h := decode_nonfatal_read_error_fatal envT cEst chunkGarbage
    "bad frame bytes" "connection reset" [] (by decide)
  exact ⟨h.1 rfl, h.2.1.1, h.2.1.2,
    h.2.2 [5] [6] [8] rfl rfl rfl⟩

/-! ## Heartbeat gating lemmas -/

theorem hbSends_append (a b : List Effect) :
    hbSends (a ++ b) = hbSends a + hbSends b := by
  simp [hbSends, List.countP_append]

theorem Close_connecting (c : Connector) : (Close c).1.connecting = false := by
  by_cases h : c.connecting <;> simp [Close, h]

theorem Close_closed_noop (c : Connector) (h : c.connecting = false) :
    Close c = (c, []) := by
  simp [Close, h]

theorem hbSends_Close (c : Connector) : hbSends (Close c).2 = 0 := by
  by_cases h : c.connecting <;> simp [Close, h, hbSends, isHBSend]

theorem startHB_Close (c : Connector) :
    (Close c).2.any isStartHB = false := by
  by_cases h : c.connecting <;> simp [Close, h, isStartHB]

theorem processMessage_connecting (c : Connector) (m : Message) :
    (processMessage c m).1.connecting = c.connecting := by
  rcases m with ⟨mt, mr, mi, md⟩
  cases mt with
  | Push => cases h : eventHandler c mr <;> simp [processMessage, h]
  | Response => cases h : responseHandler c mi <;> simp [processMessage, h]
  | Request => simp [processMessage]
  | Notify => simp [processMessage]

theorem hbSends_processMessage (c : Connector) (m : Message) :
    hbSends (processMessage c m).2 = 0 := by
  rcases m with ⟨mt, mr, mi, md⟩
  cases mt with
  | Push =>
    cases h : eventHandler c mr <;> simp [processMessage, h, hbSends, isHBSend]
  | Response =>
    cases h : responseHandler c mi <;>
      simp [processMessage, h, hbSends, isHBSend]
  | Request => simp [processMessage, hbSends]
  | Notify => simp [processMessage, hbSends]

theorem startHB_processMessage (c : Connector) (m : Message) :
    (processMessage c m).2.any isStartHB = false := by
  rcases m with ⟨mt, mr, mi, md⟩
  cases mt with
  | Push => cases h : eventHandler c mr <;> simp [processMessage, h, isStartHB]
  | Response =>
    cases h : responseHandler c mi <;> simp [processMessage, h, isStartHB]
  | Request => simp [processMessage]
  | Notify => simp [processMessage]

theorem Request_connecting (env : Env) (c : Connector) (route : String)
    (data : Bytes) (cb : Nat) :
    (Request env c route data cb).1.connecting = c.connecting := by
  unfold Request sendMessage
  cases h1 : env.messageEncode
      { type := .Request, route := route, id := c.mid, data := data } with
  | error s => simp [h1]
  | ok d =>
    cases h2 : env.codecEncode .Data (some d) with
    | error s => simp [h1, h2]
    | ok payload => simp [h1, h2]

theorem hbSends_Request (env : Env) (c : Connector) (route : String)
    (data : Bytes) (cb : Nat) :
    hbSends (Request env c route data cb).2.1 = 0 := by
  unfold Request sendMessage
  cases h1 : env.messageEncode
      { type := .Request, route := route, id := c.mid, data := data } with
  | error s => simp [h1, hbSends, isHBSend]
  | ok d =>
    cases h2 : env.codecEncode .Data (some d) with
    | error s => simp [h1, h2, hbSends, isHBSend]
    | ok payload => simp [h1, h2, hbSends, isHBSend]

theorem startHB_Request (env : Env) (c : Connector) (route : String)
    (data : Bytes) (cb : Nat) :
    ((Request env c route data cb).2.1.any isStartHB) = false := by
  unfold Request sendMessage
  cases h1 : env.messageEncode
      { type := .Request, route := route, id := c.mid, data := data } with
  | error s => simp [h1, isStartHB]
  | ok d =>
    cases h2 : env.codecEncode .Data (some d) with
    | error s => simp [h1, h2, isStartHB]
    | ok payload => simp [h1, h2, isStartHB]

theorem Notify_connecting (env : Env) (c : Connector) (route : String)
    (data : Bytes) :
    (Notify env c route data).1.connecting = c.connecting := by
  unfold Notify sendMessage
  cases h1 : env.messageEncode
      { type := .Notify, route := route, id := 0, data := data } with
  | error s => simp [h1]
  | ok d =>
    cases h2 : env.codecEncode .Data (some d) with
    | error s => simp [h1, h2]
    | ok payload => simp [h1, h2]

theorem hbSends_Notify (env : Env) (c : Connector) (route : String)
    (data : Bytes) : hbSends (Notify env c route data).2.1 = 0 := by
  unfold Notify sendMessage
  cases h1 : env.messageEncode
      { type := .Notify, route := route, id := 0, data := data } with
  | error s => simp [h1, hbSends]
  | ok d =>
    cases h2 : env.codecEncode .Data (some d) with
    | error s => simp [h1, h2, hbSends]
    | ok payload => simp [h1, h2, hbSends, isHBSend]

theorem startHB_Notify (env : Env) (c : Connector) (route : String)
    (data : Bytes) : ((Notify env c route data).2.1.any isStartHB) = false := by
  unfold Notify sendMessage
  cases h1 : env.messageEncode
      { type := .Notify, route := route, id := 0, data := data } with
  | error s => simp [h1]
  | ok d =>
    cases h2 : env.codecEncode .Data (some d) with
    | error s => simp [h1, h2]
    | ok payload => simp [h1, h2, isStartHB]

theorem processPacket_closed (env : Env) (c : Connector) (p : Packet)
    (h : c.connecting = false) :
    (processPacket env c p).1.connecting = false := by
  rcases p with ⟨pt, pd⟩
  cases pt with
  | Handshake =>
    cases hu : env.unmarshalHandshake pd with
    | error s => simp [processPacket, hu, Close_connecting]
    | ok hs => by_cases hc : hs.code = 200 <;> simp [processPacket, hu, hc, h]
  | Data =>
    cases hd : env.messageDecode pd with
    | error s => simp [processPacket, hd, h]
    | ok m => simp [processPacket, hd, processMessage_connecting, h]
  | Kick => simp [processPacket, h]
  | HandshakeAck => simp [processPacket, h]
  | Heartbeat => simp [processPacket, h]

theorem hbSends_processPacket (env : Env) (c : Connector) (p : Packet) :
    hbSends (processPacket env c p).2 = 0 := by
  rcases p with ⟨pt, pd⟩
  cases pt with
  | Handshake =>
    cases hu : env.unmarshalHandshake pd with
    | error s => simp [processPacket, hu, hbSends_Close]
    | ok hs =>
      by_cases hc : hs.code = 200
      · cases hcb : c.connectedCallback <;>
          simp [processPacket, hu, hc, hcb, hbSends, isHBSend]
      · simp [processPacket, hu, hc, hbSends, isHBSend]
  | Data =>
    cases hd : env.messageDecode pd with
    | error s => simp [processPacket, hd, hbSends]
    | ok m => simp [processPacket, hd, hbSends_processMessage]
  | Kick => simp [processPacket, hbSends, isHBSend]
  | HandshakeAck => simp [processPacket, hbSends]
  | Heartbeat => simp [processPacket, hbSends]

theorem startHB_processPacket (env : Env) (c : Connector) (p : Packet)
    (h : isHs200Pkt env p = false) :
    ((processPacket env c p).2.any isStartHB) = false := by
  rcases p with ⟨pt, pd⟩
  cases pt with
  | Handshake =>
    cases hu : env.unmarshalHandshake pd with
    | error s => simp [processPacket, hu, startHB_Close]
    | ok hs =>
      by_cases hc : hs.code = 200
      · simp [isHs200Pkt, hu, hc] at h
      · simp [processPacket, hu, hc, isStartHB]
  | Data =>
    cases hd : env.messageDecode pd with
    | error s => simp [processPacket, hd]
    | ok m => simp [processPacket, hd, startHB_processMessage]
  | Kick => simp [processPacket, isStartHB]
  | HandshakeAck => simp [processPacket]
  | Heartbeat => simp [processPacket]

theorem step_closed (env : Env) (s : Sys) (i : Input)
    (h : s.conn.connecting = false) :
    (step env s i).1.conn.connecting = false := by
  by_cases he : s.exited
  · simp [step, he, h]
  · cases i with
    | pkt p =>
      rcases hp : processPacket env s.conn p with ⟨c1, effs⟩
      have hc := processPacket_closed env s.conn p h
      rw [hp] at hc
      have hc2 : c1.connecting = false := hc
      simp [step, he, hp, hc2]
    | req route data cb =>
      rcases hr : Request env s.conn route data cb with ⟨c1, effs, err⟩
      have hc := Request_connecting env s.conn route data cb
      rw [hr] at hc
      have hc2 : c1.connecting = s.conn.connecting := hc
      simp [step, he, hr, hc2, h]
    | ntf route data =>
      rcases hr : Notify env s.conn route data with ⟨c1, effs, err⟩
      have hc := Notify_connecting env s.conn route data
      rw [hr] at hc
      have hc2 : c1.connecting = s.conn.connecting := hc
      simp [step, he, hr, hc2, h]
    | close =>
      rcases hr : Close s.conn with ⟨c1, effs⟩
      have hc := Close_connecting s.conn
      rw [hr] at hc
      have hc2 : c1.connecting = false := hc
      simp [step, he, hr, hc2]
    | hbTick => by_cases hb : s.hbStarted <;> simp [step, he, hb, h]

theorem step_hbSends_closed (env : Env) (s : Sys) (i : Input)
    (h : s.conn.connecting = false) :
    hbSends (step env s i).2 = 0 := by
  by_cases he : s.exited
  · simp [step, he, hbSends]
  · cases i with
    | pkt p =>
      rcases hp : processPacket env s.conn p with ⟨c1, effs⟩
      have hc := hbSends_processPacket env s.conn p
      rw [hp] at hc
      simp [step, he, hp, hc]
    | req route data cb =>
      rcases hr : Request env s.conn route data cb with ⟨c1, effs, err⟩
      have hc := hbSends_Request env s.conn route data cb
      rw [hr] at hc
      simp [step, he, hr, hc]
    | ntf route data =>
      rcases hr : Notify env s.conn route data with ⟨c1, effs, err⟩
      have hc := hbSends_Notify env s.conn route data
      rw [hr] at hc
      simp [step, he, hr, hc]
    | close =>
      rcases hr : Close s.conn with ⟨c1, effs⟩
      have hc := hbSends_Close s.conn
      rw [hr] at hc
      simp [step, he, hr, hc]
    | hbTick =>
      by_cases hb : s.hbStarted <;>
        simp [step, he, hb, heartbeatTick, IsClosed, h, hbSends]

theorem step_hbSends_unstarted (env : Env) (s : Sys) (i : Input)
    (h : s.hbStarted = false) : hbSends (step env s i).2 = 0 := by
  by_cases he : s.exited
  · simp [step, he, hbSends]
  · cases i with
    | pkt p =>
      rcases hp : processPacket env s.conn p with ⟨c1, effs⟩
      have hc := hbSends_processPacket env s.conn p
      rw [hp] at hc
      simp [step, he, hp, hc]
    | req route data cb =>
      rcases hr : Request env s.conn route data cb with ⟨c1, effs, err⟩
      have hc := hbSends_Request env s.conn route data cb
      rw [hr] at hc
      simp [step, he, hr, hc]
    | ntf route data =>
      rcases hr : Notify env s.conn route data with ⟨c1, effs, err⟩
      have hc := hbSends_Notify env s.conn route data
      rw [hr] at hc
      simp [step, he, hr, hc]
    | close =>
      rcases hr : Close s.conn with ⟨c1, effs⟩
      have hc := hbSends_Close s.conn
      rw [hr] at hc
      simp [step, he, hr, hc]
    | hbTick => simp [step, he, h, hbSends]

theorem step_hbStarted_false (env : Env) (s : Sys) (i : Input)
    (h1 : s.hbStarted = false) (h2 : isHs200 env i = false) :
    (step env s i).1.hbStarted = false := by
  by_cases he : s.exited
  · simp [step, he, h1]
  · cases i with
    | pkt p =>
      rcases hp : processPacket env s.conn p with ⟨c1, effs⟩
      have hc := startHB_processPacket env s.conn p (by simpa [isHs200] using h2)
      rw [hp] at hc
      simp [step, he, hp, hc, h1]
    | req route data cb =>
      rcases hr : Request env s.conn route data cb with ⟨c1, effs, err⟩
      simp [step, he, hr, h1]
    | ntf route data =>
      rcases hr : Notify env s.conn route data with ⟨c1, effs, err⟩
      simp [step, he, hr, h1]
    | close =>
      rcases hr : Close s.conn with ⟨c1, effs⟩
      simp [step, he, hr, h1]
    | hbTick => simp [step, he, h1]

theorem runTrace_hbSends_unstarted (env : Env) (tr : List Input) :
    ∀ s : Sys, s.hbStarted = false →
      tr.all (fun i => !isHs200 env i) = true →
      hbSends (runTrace env s tr).2 = 0 := by
  induction tr with
  | nil =>
    intro s h1 h2
    simp [runTrace, hbSends]
  | cons i rest ih =>
    intro s h1 h2
    simp only [List.all_cons, Bool.and_eq_true, Bool.not_eq_true'] at h2
    rcases hs1 : step env s i with ⟨s1, effs1⟩
    rcases hr : runTrace env s1 rest with ⟨s2, effs2⟩
    have e1 : hbSends effs1 = 0 := by
      have := step_hbSends_unstarted env s i h1
      rw [hs1] at this
      exact this
    have e2 : hbSends effs2 = 0 := by
      have hb1 : s1.hbStarted = false := by
        have := step_hbStarted_false env s i h1 h2.1
        rw [hs1] at this
        exact this
      have := ih s1 hb1 (by simpa using h2.2)
      rw [hr] at this
      exact this
    simp [runTrace, hs1, hr, hbSends_append, e1, e2]

theorem runTrace_hbSends_closed (env : Env) (tr : List Input) :
    ∀ s : Sys, s.conn.connecting = false →
      hbSends (runTrace env s tr).2 = 0 := by
  induction tr with
  | nil =>
    intro s h
    simp [runTrace, hbSends]
  | cons i rest ih =>
    intro s h
    rcases hs1 : step env s i with ⟨s1, effs1⟩
    rcases hr : runTrace env s1 rest with ⟨s2, effs2⟩
    have e1 : hbSends effs1 = 0 := by
      have := step_hbSends_closed env s i h
      rw [hs1] at this
      exact this
    have e2 : hbSends effs2 = 0 := by
      have hcl : s1.conn.connecting = false := by
        have := step_closed env s i h
        rw [hs1] at this
        exact this
      have := ih s1 hcl
      rw [hr] at this
      exact this
    simp [runTrace, hs1, hr, hbSends_append, e1, e2]

/-- C7: heartbeat gating. Each scheduler tick checks the lifecycle state and
sends nothing once the connector is closed; along any trace that contains no
code-200 handshake response the scheduler is never started and no heartbeat
frame is ever enqueued; and along any trace starting from a closed connector
(explicit `Close()` or the close performed on a fatal read error) no
heartbeat frame is enqueued, whether or not the scheduler was started. -/
theorem heartbeat_gating (env : Env) (c : Connector) (s : Sys)
    (tr : List Input) :
    (IsClosed c = true → heartbeatTick c = []) ∧
    (s.hbStarted = false → tr.all (fun i => !isHs200 env i) = true →
      hbSends (runTrace env s tr).2 = 0) ∧
    (IsClosed s.conn = true → hbSends (runTrace env s tr).2 = 0) := by
  refine ⟨?_, ?_, ?_⟩
  · intro h
    simp [heartbeatTick, h]
  · intro h1 h2
    exact runTrace_hbSends_unstarted env tr s h1 h2
  · intro h
    exact runTrace_hbSends_closed env tr s (by simpa [IsClosed] using h)

/-- C7 witness: a closed connector's tick sends nothing; a trace with ticks
and a Notify but no code-200 handshake enqueues no heartbeat frame; a trace
from a closed connector with the scheduler already started enqueues no
heartbeat frame either. -/
theorem heartbeat_gating_witness :
    heartbeatTick (Close cEst).1 = [] ∧
    hbSends (runTrace envT
      { conn := cEst, hbStarted := false, exited := false }
      [.hbTick, .ntf "chat.msg" [1], .hbTick]).2 = 0 ∧
    hbSends (runTrace envT
      { conn := (Close cEst).1, hbStarted := true, exited := false }
      [.hbTick, .pkt { type := .Handshake, data := hsOkBody }, .hbTick]).2 =
      0 := by
  refine ⟨?_, ?_, ?_⟩
  · exact (heartbeat_gating envT (Close cEst).1
      { conn := cEst, hbStarted := false, exited := false } []).1 (by decide)
  · exact (heartbeat_gating envT cEst
      { conn := cEst, hbStarted := false, exited := false }
      [.hbTick, .ntf "chat.msg" [1], .hbTick]).2.1 rfl (by decide)
  · exact (heartbeat_gating envT cEst
      { conn := (Close cEst).1, hbStarted := true, exited := false }
      [.hbTick, .pkt { type := .Handshake, data := hsOkBody },
       .hbTick]).2.2 (by decide)

/-- C8 (counterexample): with the connected callback configured, a trace in
which two code-200 Handshake frames arrive invokes the connected callback
twice — it is not invoked exactly once per Connector. -/
theorem connected_cb_invoked_twice :
    ((runTrace envT { conn := cEst, hbStarted := false, exited := false }
        [.pkt { type := .Handshake, data := hsOkBody },
         .pkt { type := .Handshake, data := hsOkBody }]).2.count
      (Effect.invokeConnectedCb 7)) = 2 := by
  decide

/-- C8 (amended): the connected callback, when configured, is invoked
exactly once on every Handshake-kind frame whose body unmarshals with code
200 — the first and any later one alike; the source has no once-only
guard. -/
theorem connected_cb_fires_each_hs200 (env : Env) (s : Sys) (p : Packet)
    (cb : Nat) (hs : DefaultHandshakePacket)
    (hexit : s.exited = false)
    (hcb : s.conn.connectedCallback = some cb)
    (htype : p.type = .Handshake)
    (hun : env.unmarshalHandshake p.data = .ok hs)
    (hcode : hs.code = 200) :
    (step env s (.pkt p)).2 =
      [.logged, .startHeartbeat hs.sys.heartbeat,
       .send .handshakeAck s.conn.handshakeAckData,
       .invokeConnectedCb cb] := by
  rcases p with ⟨pt, pd⟩
  simp only at htype
  subst htype
  simp [step, hexit, processPacket, hun, hcode, hcb]

/-- C8 witness: the concrete code-200 handshake frame produces exactly one
connected-callback invocation in its effect list. -/
theorem connected_cb_fires_each_hs200_witness :
    (step envT { conn := cEst, hbStarted := false, exited := false }
        (.pkt { type := .Handshake, data := hsOkBody })).2 =
      [.logged, .startHeartbeat 3, .send .handshakeAck cEst.handshakeAckData,
       .invokeConnectedCb 7] := by
  have h := connected_cb_fires_each_hs200 envT
    { conn := cEst, hbStarted := false, exited := false }
    { type := .Handshake, data := hsOkBody } 7
    { code := 200, sys := { heartbeat := 3 } } rfl rfl rfl rfl rfl
  simpa using h

end GoPomelo
